import Mathlib

/-!
Shallow embedding of the blacklist-entry handlers of the rental-blacklist
manager backend (`server/src/handlers/blacklist.ts` together with the zod
input schemas of `server/src/schema.ts` and the drizzle table declarations
of `server/src/db/schema.ts`).

Strings are modelled as `List Char`; JavaScript `String.prototype.includes`
becomes contiguous-sublist containment and `toLowerCase` becomes an
ASCII character lowering (all keyword scanning in the source is over ASCII).
Timestamps are modelled as `Nat` ticks supplied by the caller (`new Date()`
and the database `defaultNow()` both become a `now` parameter).
The database is modelled as an in-memory store of rows in insertion order;
the `serial` primary key becomes an explicit `nextId` counter.
-/

namespace RentalBlacklist

/-- ASCII lowering of a string, modelling `reason.toLowerCase()` on the
ASCII text the keyword scan cares about. -/
def lowerStr (s : List Char) : List Char := s.map Char.toLower

/-- `startsWith hay needle`: `needle` is an initial segment of `hay`. -/
def startsWith : List Char → List Char → Bool
  | _, [] => true
  | [], _ :: _ => false
  | c :: cs, d :: ds => c == d && startsWith cs ds

/-- `containsSub hay needle`: `needle` occurs contiguously inside `hay`,
modelling JavaScript `hay.includes(needle)`. -/
def containsSub : List Char → List Char → Bool
  | hay, needle =>
    if startsWith hay needle then true
    else
      match hay with
      | [] => false
      | _ :: t => containsSub t needle

/-- The high-risk keyword list of `calculateBlacklistScore`. -/
def highRiskKeywords : List (List Char) :=
  ["fraud".toList, "theft".toList, "violence".toList, "criminal".toList, "scam".toList]

/-- The medium-risk keyword list of `calculateBlacklistScore`. -/
def mediumRiskKeywords : List (List Char) :=
  ["dispute".toList, "complaint".toList, "unpaid".toList, "breach".toList]

/-- `keywords.some(keyword => reasonLower.includes(keyword))`. -/
def hasKeywordHit (keywords : List (List Char)) (reasonLower : List Char) : Bool :=
  keywords.any (fun keyword => containsSub reasonLower keyword)

/-- The scoring heuristic of the handler file: base 50, +30 for a high-risk
keyword else +15 for a medium-risk keyword, +10 per evidence flag,
capped at 100 (`Math.min(baseScore, 100)`). -/
def calculateBlacklistScore (reason : List Char) (hasDocuments hasFaceImage : Bool) : Nat :=
  let reasonLower := lowerStr reason
  let s1 :=
    if hasKeywordHit highRiskKeywords reasonLower then 50 + 30
    else if hasKeywordHit mediumRiskKeywords reasonLower then 50 + 15
    else 50
  let s2 := if hasDocuments then s1 + 10 else s1
  let s3 := if hasFaceImage then s2 + 10 else s2
  min s3 100

/-- Reference scoring definition written from the specification text:
start at 50; add 30 when the lowercased reason contains a high-risk keyword,
otherwise add 15 when it contains a medium-risk keyword; add 10 per evidence
flag; clamp to a maximum of 100. -/
def specScore (reason : List Char) (hasDocuments hasFaceImage : Bool) : Nat :=
  let lower := lowerStr reason
  let keywordDelta :=
    if hasKeywordHit highRiskKeywords lower then 30
    else if hasKeywordHit mediumRiskKeywords lower then 15
    else 0
  min (50 + keywordDelta + (if hasDocuments then 10 else 0) + (if hasFaceImage then 10 else 0)) 100

/-- Blacklist entry status (`pgEnum('blacklist_status', ...)`). -/
inductive BlacklistStatus
  | active
  | inactive
  | pending
  | resolved
deriving DecidableEq

/-- The columns of `usersTable` read by the authorization logic:
the primary key and the `is_admin` flag. -/
structure User where
  id : Nat
  is_admin : Bool
deriving DecidableEq

/-- The columns of `companiesTable` the blacklist handlers read:
the primary key and the owning `user_id`. -/
structure Company where
  id : Nat
  user_id : Nat
deriving DecidableEq

/-- A row of `blacklistEntriesTable`. Nullable text columns are `Option`,
`id_document_urls` is the json list of url strings. -/
structure BlacklistEntry where
  id : Nat
  user_id : Nat
  company_id : Nat
  first_name : List Char
  last_name : List Char
  id_number : List Char
  phone : Option (List Char)
  email : Option (List Char)
  face_image_url : Option (List Char)
  id_document_urls : List (List Char)
  blacklist_score : Nat
  reason : List Char
  status : BlacklistStatus
  is_blacklisted : Bool
  created_at : Nat
  updated_at : Nat
deriving DecidableEq

/-- A row of `activityLogsTable` as inserted by `logActivity`. -/
structure ActivityLog where
  user_id : Nat
  action : List Char
  resource_type : List Char
  resource_id : Option Nat
  details : Option (List Char)
  ip_address : Option (List Char)
  user_agent : Option (List Char)
  created_at : Nat
deriving DecidableEq

/-- The database state: the tables in row-insertion order, plus the next
serial id for blacklist entries. -/
structure Store where
  users : List User
  companies : List Company
  entries : List BlacklistEntry
  logs : List ActivityLog
  nextId : Nat
deriving DecidableEq

/-- Whether the given principal's user row carries the `is_admin` flag. -/
def isAdminUser (st : Store) (userId : Nat) : Bool :=
  match st.users.find? (fun u => decide (u.id = userId)) with
  | none => false
  | some u => u.is_admin

/-- Typed failures of the handlers (kinds, not literal messages). -/
inductive HandlerError
  | userCompanyNotFound
  | notFoundOrDenied
  | updateFailed
deriving DecidableEq

/-- `getUserCompanyId`: first company row owned by the user
(`db.select().from(companiesTable).where(eq(user_id, userId))`, `company[0].id`),
throwing when the user owns none. -/
def getUserCompanyId (st : Store) (userId : Nat) : Except HandlerError Nat :=
  match st.companies.find? (fun c => decide (c.user_id = userId)) with
  | none => .error .userCompanyNotFound
  | some c => .ok c.id

/-- `logActivity`: insert one activity row; a failing insert is caught and
swallowed. `sinkOk` is the behaviour of the activity sink: `false` means
the insert throws, in which case the store is left as it was. -/
def logActivity (sinkOk : Bool) (st : Store) (userId : Nat) (action : List Char)
    (resourceId : Option Nat) (details : Option (List Char)) (now : Nat) : Store :=
  if sinkOk then
    { st with logs := st.logs ++ [{
        user_id := userId
        action := action
        resource_type := "blacklist_entry".toList
        resource_id := resourceId
        details := details
        ip_address := none
        user_agent := none
        created_at := now }] }
  else st

/-- JavaScript truthiness of a nullable string (`Boolean(x)`):
`null` and the empty string are falsy. -/
def jsTruthy (s : Option (List Char)) : Bool :=
  match s with
  | none => false
  | some t => !t.isEmpty

/-- The parsed `createBlacklistEntrySchema` input. -/
structure CreateBlacklistEntry where
  first_name : List Char
  last_name : List Char
  id_number : List Char
  phone : Option (List Char)
  email : Option (List Char)
  face_image_url : Option (List Char)
  id_document_urls : List (List Char)
  reason : List Char
  is_blacklisted : Bool
deriving DecidableEq

/-- The parsed `updateBlacklistEntrySchema` input. The outer `Option` is
field presence (`undefined` when absent); for the `.nullable().optional()`
columns the inner `Option` is the explicit `null` state. -/
structure UpdateBlacklistEntry where
  id : Nat
  first_name : Option (List Char)
  last_name : Option (List Char)
  id_number : Option (List Char)
  phone : Option (Option (List Char))
  email : Option (Option (List Char))
  face_image_url : Option (Option (List Char))
  id_document_urls : Option (List (List Char))
  reason : Option (List Char)
  status : Option BlacklistStatus
  is_blacklisted : Option Bool
deriving DecidableEq

/-- `patch ?? old` on a nullable-optional field: both `undefined` and an
explicit `null` are nullish, so both fall through to the old value. -/
def jsCoalesce (patch : Option (Option (List Char))) (old : Option (List Char)) :
    Option (List Char) :=
  match patch with
  | none => old
  | some none => old
  | some (some v) => some v

/-- `if (patch !== undefined) row.field = patch` on a nullable-optional
field: an explicit `null` is written through. -/
def applyOptNullable (patch : Option (Option (List Char))) (old : Option (List Char)) :
    Option (List Char) :=
  match patch with
  | none => old
  | some v => v

/-- The parsed `blacklistFilterSchema` input (the handler never reads
`company_id`, but the schema carries it). -/
structure BlacklistFilter where
  status : Option BlacklistStatus
  company_id : Option Nat
  search : Option (List Char)
  date_from : Option Nat
  date_to : Option Nat
  min_score : Option Nat
  max_score : Option Nat
deriving DecidableEq

/-- The parsed `paginationSchema` input. -/
structure Pagination where
  page : Nat
  limit : Nat
deriving DecidableEq

/-- The free-text condition of `getBlacklistEntries`: SQL
`LIKE '%search%'` (case-sensitive on this PostgreSQL schema), OR'd over
first name, last name, id number, email and reason; `LIKE` on a NULL email
does not match. Modelled for search strings without SQL wildcard characters. -/
def matchesSearch (search : List Char) (e : BlacklistEntry) : Bool :=
  containsSub e.first_name search
  || containsSub e.last_name search
  || containsSub e.id_number search
  || (match e.email with
      | none => false
      | some m => containsSub m search)
  || containsSub e.reason search

/-- The AND of the conditions `getBlacklistEntries` pushes into its WHERE
clause: company scope, then each filter only when present (`between` when
both date bounds are given, single-sided comparisons otherwise; score
bounds inclusive). -/
def entryMatches (companyId : Nat) (f : BlacklistFilter) (e : BlacklistEntry) : Bool :=
  decide (e.company_id = companyId)
  && (match f.status with
      | none => true
      | some s => decide (e.status = s))
  && (match f.search with
      | none => true
      | some q => matchesSearch q e)
  && (match f.date_from, f.date_to with
      | some a, some b => decide (a ≤ e.created_at) && decide (e.created_at ≤ b)
      | some a, none => decide (a ≤ e.created_at)
      | none, some b => decide (e.created_at ≤ b)
      | none, none => true)
  && (match f.min_score with
      | none => true
      | some m => decide (m ≤ e.blacklist_score))
  && (match f.max_score with
      | none => true
      | some m => decide (e.blacklist_score ≤ m))

/-- Insert an entry into a list kept in descending `created_at` order. -/
def insertByCreatedDesc (x : BlacklistEntry) : List BlacklistEntry → List BlacklistEntry
  | [] => [x]
  | y :: ys =>
    if y.created_at ≤ x.created_at then x :: y :: ys
    else y :: insertByCreatedDesc x ys

/-- `orderBy(desc(created_at))` as an insertion sort. -/
def sortByCreatedDesc : List BlacklistEntry → List BlacklistEntry
  | [] => []
  | x :: xs => insertByCreatedDesc x (sortByCreatedDesc xs)

/-- `createBlacklistEntry`: resolve the caller's company, compute the score
from the submission (`id_document_urls.length > 0`, `Boolean(face_image_url)`),
insert the row with `status: 'active'` and the submitted `is_blacklisted`,
log `created`, return the row. Mutators return the result together with the
post-call store; errors leave the store untouched. -/
def createBlacklistEntry (sinkOk : Bool) (userId : Nat) (input : CreateBlacklistEntry)
    (now : Nat) (st : Store) : Except HandlerError BlacklistEntry × Store :=
  match getUserCompanyId st userId with
  | .error e => (.error e, st)
  | .ok companyId =>
    let blacklistScore := calculateBlacklistScore input.reason
      (decide (0 < input.id_document_urls.length)) (jsTruthy input.face_image_url)
    let entry : BlacklistEntry := {
      id := st.nextId
      user_id := userId
      company_id := companyId
      first_name := input.first_name
      last_name := input.last_name
      id_number := input.id_number
      phone := input.phone
      email := input.email
      face_image_url := input.face_image_url
      id_document_urls := input.id_document_urls
      blacklist_score := blacklistScore
      reason := input.reason
      status := .active
      is_blacklisted := input.is_blacklisted
      created_at := now
      updated_at := now }
    let st1 : Store := { st with entries := st.entries ++ [entry], nextId := st.nextId + 1 }
    let st2 := logActivity sinkOk st1 userId "created".toList (some entry.id)
      (some ("Created blacklist entry for ".toList ++ input.first_name ++ " ".toList ++ input.last_name)) now
    (.ok entry, st2)

/-- `getBlacklistEntry`: select by entry id AND the caller's company id,
returning the first row or `null`. Read-only. -/
def getBlacklistEntry (userId entryId : Nat) (st : Store) :
    Except HandlerError (Option BlacklistEntry) :=
  match getUserCompanyId st userId with
  | .error e => .error e
  | .ok companyId =>
    .ok (st.entries.find? (fun e => decide (e.id = entryId) && decide (e.company_id = companyId)))

/-- `getBlacklistEntries`: scope to the caller's company, AND in the present
filters, order by `created_at` descending, page with
`offset = (page - 1) * limit`, and count the matches without pagination. -/
def getBlacklistEntries (userId : Nat) (filters : BlacklistFilter) (pagination : Pagination)
    (st : Store) : Except HandlerError (List BlacklistEntry × Nat) :=
  match getUserCompanyId st userId with
  | .error e => .error e
  | .ok companyId =>
    let matched := st.entries.filter (fun e => entryMatches companyId filters e)
    .ok (((sortByCreatedDesc matched).drop ((pagination.page - 1) * pagination.limit)).take
          pagination.limit,
         matched.length)

/-- `updateBlacklistEntry`: fetch through `getBlacklistEntry` (throwing
`NotFoundOrDenied` on `null`), build the patch object from the present
fields, recompute the score when `reason`, `id_document_urls` or
`face_image_url` is present — using `input.field ?? existing.field` for the
effective values — set `updated_at`, persist to the rows matching
(id, company), log `updated`, and return the updated row. -/
def updateBlacklistEntry (sinkOk : Bool) (userId : Nat) (input : UpdateBlacklistEntry)
    (now : Nat) (st : Store) : Except HandlerError BlacklistEntry × Store :=
  match getUserCompanyId st userId with
  | .error e => (.error e, st)
  | .ok companyId =>
    match getBlacklistEntry userId input.id st with
    | .error e => (.error e, st)
    | .ok none => (.error .notFoundOrDenied, st)
    | .ok (some existingEntry) =>
      let newScore : Option Nat :=
        if input.reason.isSome || input.id_document_urls.isSome || input.face_image_url.isSome then
          some (calculateBlacklistScore
            (input.reason.getD existingEntry.reason)
            (decide (0 < (input.id_document_urls.getD existingEntry.id_document_urls).length))
            (jsTruthy (jsCoalesce input.face_image_url existingEntry.face_image_url)))
        else none
      let updatedRow := fun (e : BlacklistEntry) => {
        e with
        updated_at := now
        first_name := input.first_name.getD e.first_name
        last_name := input.last_name.getD e.last_name
        id_number := input.id_number.getD e.id_number
        phone := applyOptNullable input.phone e.phone
        email := applyOptNullable input.email e.email
        face_image_url := applyOptNullable input.face_image_url e.face_image_url
        id_document_urls := input.id_document_urls.getD e.id_document_urls
        reason := input.reason.getD e.reason
        status := input.status.getD e.status
        is_blacklisted := input.is_blacklisted.getD e.is_blacklisted
        blacklist_score := newScore.getD e.blacklist_score }
      let st1 : Store := { st with entries := st.entries.map (fun e =>
        if decide (e.id = input.id) && decide (e.company_id = companyId) then updatedRow e else e) }
      let updatedEntry := updatedRow existingEntry
      let st2 := logActivity sinkOk st1 userId "updated".toList (some input.id)
        (some ("Updated blacklist entry for ".toList ++ updatedEntry.first_name ++ " ".toList
          ++ updatedEntry.last_name)) now
      (.ok updatedEntry, st2)

/-- `deleteBlacklistEntry`: fetch through `getBlacklistEntry` (throwing
`NotFoundOrDenied` on `null`), hard-delete the rows matching (id, company),
log `deleted`, and return `{ success: true }`. -/
def deleteBlacklistEntry (sinkOk : Bool) (userId entryId : Nat) (now : Nat) (st : Store) :
    Except HandlerError Bool × Store :=
  match getUserCompanyId st userId with
  | .error e => (.error e, st)
  | .ok companyId =>
    match getBlacklistEntry userId entryId st with
    | .error e => (.error e, st)
    | .ok none => (.error .notFoundOrDenied, st)
    | .ok (some existingEntry) =>
      let st1 : Store := { st with entries := st.entries.filter (fun e =>
        !(decide (e.id = entryId) && decide (e.company_id = companyId))) }
      let st2 := logActivity sinkOk st1 userId "deleted".toList (some entryId)
        (some ("Deleted blacklist entry for ".toList ++ existingEntry.first_name ++ " ".toList
          ++ existingEntry.last_name)) now
      (.ok true, st2)

/-- The status `toggleBlacklistStatus` derives from the flag:
`isBlacklisted ? 'active' : 'inactive'`. -/
def toggledStatus (isBlacklisted : Bool) : BlacklistStatus :=
  if isBlacklisted then .active else .inactive

/-- `toggleBlacklistStatus`: fetch through `getBlacklistEntry` (throwing
`NotFoundOrDenied` on `null`), set `is_blacklisted`, the derived status and
`updated_at` on the rows matching (id, company), log
`blacklisted`/`unblacklisted`, and return the updated row. -/
def toggleBlacklistStatus (sinkOk : Bool) (userId entryId : Nat) (isBlacklisted : Bool)
    (now : Nat) (st : Store) : Except HandlerError BlacklistEntry × Store :=
  match getUserCompanyId st userId with
  | .error e => (.error e, st)
  | .ok companyId =>
    match getBlacklistEntry userId entryId st with
    | .error e => (.error e, st)
    | .ok none => (.error .notFoundOrDenied, st)
    | .ok (some existingEntry) =>
      let newStatus := toggledStatus isBlacklisted
      let updatedRow := fun (e : BlacklistEntry) => {
        e with
        is_blacklisted := isBlacklisted
        status := newStatus
        updated_at := now }
      let st1 : Store := { st with entries := st.entries.map (fun e =>
        if decide (e.id = entryId) && decide (e.company_id = companyId) then updatedRow e else e) }
      let updatedEntry := updatedRow existingEntry
      let st2 := logActivity sinkOk st1 userId
        (if isBlacklisted then "blacklisted".toList else "unblacklisted".toList) (some entryId)
        (some ((if isBlacklisted then "Blacklisted ".toList else "Unblacklisted ".toList)
          ++ updatedEntry.first_name ++ " ".toList ++ updatedEntry.last_name)) now
      (.ok updatedEntry, st2)

theorem logActivity_entries (sinkOk : Bool) (st : Store) (userId : Nat) (action : List Char)
    (resourceId : Option Nat) (details : Option (List Char)) (now : Nat) :
    (logActivity sinkOk st userId action resourceId details now).entries = st.entries := by
  cases sinkOk <;> rfl

theorem mem_insertByCreatedDesc {a x : BlacklistEntry} {l : List BlacklistEntry} :
    a ∈ insertByCreatedDesc x l ↔ a = x ∨ a ∈ l := by
  induction l with
  | nil => simp [insertByCreatedDesc]
  | cons y ys ih =>
    by_cases h : y.created_at ≤ x.created_at
    · simp [insertByCreatedDesc, h]
    · simp [insertByCreatedDesc, h, ih]
      tauto

theorem mem_sortByCreatedDesc {a : BlacklistEntry} {l : List BlacklistEntry} :
    a ∈ sortByCreatedDesc l ↔ a ∈ l := by
  induction l with
  | nil => simp [sortByCreatedDesc]
  | cons x xs ih => simp [sortByCreatedDesc, mem_insertByCreatedDesc, ih]

theorem length_insertByCreatedDesc (x : BlacklistEntry) (l : List BlacklistEntry) :
    (insertByCreatedDesc x l).length = l.length + 1 := by
  induction l with
  | nil => rfl
  | cons y ys ih =>
    by_cases h : y.created_at ≤ x.created_at
    · simp [insertByCreatedDesc, h]
    · simp [insertByCreatedDesc, h, ih]

theorem length_sortByCreatedDesc (l : List BlacklistEntry) :
    (sortByCreatedDesc l).length = l.length := by
  induction l with
  | nil => rfl
  | cons x xs ih => simp [sortByCreatedDesc, length_insertByCreatedDesc, ih]

/-- Rows of a table whose mapped ids are `Nodup` are determined by their id. -/
theorem entry_eq_of_id_eq {l : List BlacklistEntry}
    (hnd : (l.map (fun e => e.id)).Nodup) {a b : BlacklistEntry}
    (ha : a ∈ l) (hb : b ∈ l) (hab : a.id = b.id) : a = b :=
  List.inj_on_of_nodup_map hnd ha hb hab

/-- C1: `computeScore` (the handler's `calculateBlacklistScore`) agrees with
the reference definition from the specification at every input: base 50,
+30 for a high-risk keyword in the lowercased reason — skipping the
medium-risk check — else +15 for a medium-risk keyword, +10 per evidence
flag, clamped to at most 100. -/
theorem c1_score_matches_reference (reason : List Char) (hasDocuments hasFaceImage : Bool) :
    calculateBlacklistScore reason hasDocuments hasFaceImage =
      specScore reason hasDocuments hasFaceImage := by
  unfold calculateBlacklistScore specScore
  cases h1 : hasKeywordHit highRiskKeywords (lowerStr reason) <;>
    cases h2 : hasKeywordHit mediumRiskKeywords (lowerStr reason) <;>
      cases hasDocuments <;> cases hasFaceImage <;> simp [h1, h2]

/-- C5 is false as stated: the reason "dispute" contains a medium-risk and
no high-risk keyword, yet with both evidence flags set the score is 85,
outside the claimed range [65, 75]. -/
theorem c5_medium_range_counterexample :
    hasKeywordHit mediumRiskKeywords (lowerStr "dispute".toList) = true ∧
    hasKeywordHit highRiskKeywords (lowerStr "dispute".toList) = false ∧
    calculateBlacklistScore "dispute".toList true true = 85 ∧
    ¬ calculateBlacklistScore "dispute".toList true true ≤ 75 := by
  refine ⟨by decide, by decide, by decide, by decide⟩

/-- C5 amended: for a reason containing a medium-risk keyword and no
high-risk keyword, the score lies in [65, 85] (65 plus 10 per evidence
flag, so [65, 75] only when at most one flag is set), and is strictly less
than the score of any high-risk reason with the same flags. -/
theorem c5_medium_risk_amended (reason : List Char) (hasDocuments hasFaceImage : Bool)
    (hmed : hasKeywordHit mediumRiskKeywords (lowerStr reason) = true)
    (hhigh : hasKeywordHit highRiskKeywords (lowerStr reason) = false) :
    65 ≤ calculateBlacklistScore reason hasDocuments hasFaceImage ∧
    calculateBlacklistScore reason hasDocuments hasFaceImage ≤ 85 ∧
    ∀ reason2, hasKeywordHit highRiskKeywords (lowerStr reason2) = true →
      calculateBlacklistScore reason hasDocuments hasFaceImage <
        calculateBlacklistScore reason2 hasDocuments hasFaceImage := by
  refine ⟨?_, ?_, ?_⟩
  · cases hasDocuments <;> cases hasFaceImage <;> simp [calculateBlacklistScore, hmed, hhigh]
  · cases hasDocuments <;> cases hasFaceImage <;> simp [calculateBlacklistScore, hmed, hhigh]
  · intro reason2 h2
    cases hasDocuments <;> cases hasFaceImage <;>
      simp [calculateBlacklistScore, hmed, hhigh, h2]

/-- Concrete instance of the amended C5: reason "dispute" with both flags
scores 85, within [65, 85] and below the high-risk reason "fraud". -/
theorem c5_medium_risk_amended_witness :
    65 ≤ calculateBlacklistScore "dispute".toList true true ∧
    calculateBlacklistScore "dispute".toList true true ≤ 85 ∧
    calculateBlacklistScore "dispute".toList true true <
      calculateBlacklistScore "fraud".toList true true := by
  have h := c5_medium_risk_amended "dispute".toList true true (by decide) (by decide)
  exact ⟨h.1, h.2.1, h.2.2 "fraud".toList (by decide)⟩

/-- The parsed filter object when the caller supplies no filters. -/
def noFilter : BlacklistFilter := ⟨none, none, none, none, none, none, none⟩

/-- The parsed `{ id }` patch: every optional field absent. -/
def emptyPatch (entryId : Nat) : UpdateBlacklistEntry :=
  ⟨entryId, none, none, none, none, none, none, none, none, none, none⟩

/-- C2: with unique entry ids, a principal whose resolved company differs
from an entry's `company_id` can neither see nor touch it: list omits it,
get returns null, and update, delete and toggle all fail with
`NotFoundOrDenied` and leave the store exactly as it was. -/
theorem c2_cross_company_isolation (st : Store) (u cid : Nat) (e : BlacklistEntry)
    (sinkOk : Bool) (patch : UpdateBlacklistEntry) (filters : BlacklistFilter)
    (p : Pagination) (now : Nat) (b : Bool)
    (hnd : (st.entries.map (fun x => x.id)).Nodup)
    (hc : getUserCompanyId st u = .ok cid)
    (he : e ∈ st.entries) (hne : e.company_id ≠ cid) (hpid : patch.id = e.id) :
    (∀ res, getBlacklistEntries u filters p st = .ok res → e ∉ res.1) ∧
    getBlacklistEntry u e.id st = .ok none ∧
    updateBlacklistEntry sinkOk u patch now st = (.error .notFoundOrDenied, st) ∧
    deleteBlacklistEntry sinkOk u e.id now st = (.error .notFoundOrDenied, st) ∧
    toggleBlacklistStatus sinkOk u e.id b now st = (.error .notFoundOrDenied, st) := by
  have hfind : st.entries.find?
      (fun x => decide (x.id = e.id) && decide (x.company_id = cid)) = none := by
    rw [List.find?_eq_none]
    intro x hx
    simp only [Bool.and_eq_true, decide_eq_true_eq, not_and]
    intro hid
    have hxe : x = e := entry_eq_of_id_eq hnd hx he hid
    rw [hxe]
    exact hne
  refine ⟨?_, ?_, ?_, ?_, ?_⟩
  · intro res hres hmem
    simp only [getBlacklistEntries, hc] at hres
    obtain rfl := (Except.ok.injEq _ _).mp hres
    have h1 := List.mem_of_mem_take hmem
    have h2 := List.mem_of_mem_drop h1
    have h3 := mem_sortByCreatedDesc.mp h2
    have h4 := (List.mem_filter.mp h3).2
    simp only [entryMatches, Bool.and_eq_true, decide_eq_true_eq] at h4
    exact hne h4.1.1.1.1.1
  · simp [getBlacklistEntry, hc, hfind]
  · simp [updateBlacklistEntry, getBlacklistEntry, hc, hpid, hfind]
  · simp [deleteBlacklistEntry, getBlacklistEntry, hc, hfind]
  · simp [toggleBlacklistStatus, getBlacklistEntry, hc, hfind]

/-- An entry owned by company 2 in a store where user 1 owns company 1. -/
def c2Entry : BlacklistEntry :=
  { id := 1, user_id := 2, company_id := 2, first_name := "a".toList, last_name := "b".toList,
    id_number := "7".toList, phone := none, email := none, face_image_url := none,
    id_document_urls := [], blacklist_score := 50, reason := "r".toList, status := .active,
    is_blacklisted := true, created_at := 0, updated_at := 0 }

/-- Two users, two companies, one entry owned by the second company. -/
def c2Store : Store :=
  { users := [⟨1, false⟩, ⟨2, false⟩], companies := [⟨1, 1⟩, ⟨2, 2⟩],
    entries := [c2Entry], logs := [], nextId := 2 }

/-- Concrete instance of C2: user 1 (company 1) against the entry of
company 2. -/
theorem c2_cross_company_isolation_witness :
    (∀ res, getBlacklistEntries 1 noFilter ⟨1, 20⟩ c2Store = .ok res → c2Entry ∉ res.1) ∧
    getBlacklistEntry 1 1 c2Store = .ok none ∧
    updateBlacklistEntry true 1 (emptyPatch 1) 5 c2Store = (.error .notFoundOrDenied, c2Store) ∧
    deleteBlacklistEntry true 1 1 5 c2Store = (.error .notFoundOrDenied, c2Store) ∧
    toggleBlacklistStatus true 1 1 false 5 c2Store = (.error .notFoundOrDenied, c2Store) :=
  c2_cross_company_isolation c2Store 1 1 c2Entry true (emptyPatch 1) noFilter ⟨1, 20⟩ 5 false
    (by decide) rfl (by decide) (by decide) rfl

/-- An entry of company 1 created by user 1. -/
def c3EntryA : BlacklistEntry :=
  { id := 1, user_id := 1, company_id := 1, first_name := "a".toList, last_name := "b".toList,
    id_number := "7".toList, phone := none, email := none, face_image_url := none,
    id_document_urls := [], blacklist_score := 50, reason := "r".toList, status := .active,
    is_blacklisted := true, created_at := 0, updated_at := 0 }

/-- An entry of company 2 created by user 2. -/
def c3EntryB : BlacklistEntry :=
  { id := 2, user_id := 2, company_id := 2, first_name := "c".toList, last_name := "d".toList,
    id_number := "8".toList, phone := none, email := none, face_image_url := none,
    id_document_urls := [], blacklist_score := 50, reason := "s".toList, status := .active,
    is_blacklisted := true, created_at := 0, updated_at := 0 }

/-- User 1 is an admin owning company 1; user 2 owns company 2; one entry
in each company. -/
def c3Store : Store :=
  { users := [⟨1, true⟩, ⟨2, false⟩], companies := [⟨1, 1⟩, ⟨2, 2⟩],
    entries := [c3EntryA, c3EntryB], logs := [], nextId := 3 }

/-- C3 is false as stated: user 1 is an admin and two entries exist in two
different companies, yet the admin's unfiltered list returns only the
entry of the admin's own company with total 1 — `getBlacklistEntries`
resolves every caller, admin or not, to their own company and never reads
the admin flag. -/
theorem c3_admin_unrestricted_counterexample :
    isAdminUser c3Store 1 = true ∧
    c3EntryA.company_id ≠ c3EntryB.company_id ∧
    getBlacklistEntries 1 noFilter ⟨1, 20⟩ c3Store = .ok ([c3EntryA], 1) ∧
    c3EntryB ∉ [c3EntryA] ∧ (1 : Nat) ≠ 2 := by
  refine ⟨rfl, by decide, rfl, by decide, by decide⟩

/-- C3 amended: the list operation applies the own-company scope to every
principal; admins are not special-cased. With one entry in each of two
companies, any caller who owns the first company — admin or not — lists
only that company's entry, with total 1 rather than 2. -/
theorem c3_amended_scope_restricted_for_admins (users : List User) (logs : List ActivityLog)
    (nid uA uB cidA cidB : Nat) (eA eB : BlacklistEntry)
    (hA : eA.company_id = cidA) (hB : eB.company_id = cidB) (hne : cidB ≠ cidA) :
    getBlacklistEntries uA noFilter ⟨1, 20⟩
        ⟨users, [⟨cidA, uA⟩, ⟨cidB, uB⟩], [eA, eB], logs, nid⟩ = .ok ([eA], 1) := by
  simp only [getBlacklistEntries, getUserCompanyId]
  rw [List.find?_cons_of_pos _ (by simp)]
  simp [entryMatches, noFilter, hA, hB, hne, sortByCreatedDesc, insertByCreatedDesc]

/-- Concrete instance of the amended C3: the admin user 1 of `c3Store`
lists only company 1's entry with total 1. -/
theorem c3_amended_scope_witness :
    getBlacklistEntries 1 noFilter ⟨1, 20⟩
        ⟨[⟨1, true⟩, ⟨2, false⟩], [⟨1, 1⟩, ⟨2, 2⟩], [c3EntryA, c3EntryB], [], 3⟩ =
      .ok ([c3EntryA], 1) :=
  c3_amended_scope_restricted_for_admins [⟨1, true⟩, ⟨2, false⟩] [] 3 1 2 1 2 c3EntryA c3EntryB
    rfl rfl (by decide)

/-- An entry of company 1 with a face image attached and no documents:
its stored score 60 = 50 base + 10 for the face image. -/
def c4Entry : BlacklistEntry :=
  { id := 1, user_id := 1, company_id := 1, first_name := "a".toList, last_name := "b".toList,
    id_number := "7".toList, phone := none, email := none,
    face_image_url := some "http://img".toList, id_document_urls := [],
    blacklist_score := 60, reason := "other".toList, status := .active,
    is_blacklisted := true, created_at := 0, updated_at := 0 }

/-- One user, one company, the single entry `c4Entry`. -/
def c4Store : Store :=
  { users := [⟨1, false⟩], companies := [⟨1, 1⟩], entries := [c4Entry], logs := [], nextId := 2 }

/-- A patch setting only `face_image_url`, to an explicit null. -/
def c4Patch : UpdateBlacklistEntry :=
  ⟨1, none, none, none, none, none, some none, none, none, none, none⟩

/-- The row the code persists for `c4Patch`: the face image is nulled,
but the score stays 60. -/
def c4Updated : BlacklistEntry := { c4Entry with updated_at := 5, face_image_url := none }

/-- C4: the code contradicts the claim when a patch sets `face_image_url`
to explicit null. The update persists the null, yet the recompute reads
`input.face_image_url ?? existingEntry.face_image_url`, which treats the
null as nullish and falls back to the stored url, so the stored score stays
60 — as if the face image were still attached — while the post-patch
effective values give `computeScore("other", false, false) = 50`. The
persisted row no longer satisfies the score invariant the same function
enforces everywhere else. -/
theorem c4_null_face_image_recompute_bug :
    updateBlacklistEntry true 1 c4Patch 5 c4Store = (.ok c4Updated, {
      c4Store with entries := [c4Updated], logs := [⟨1, "updated".toList,
        "blacklist_entry".toList, some 1,
        some "Updated blacklist entry for a b".toList, none, none, 5⟩] }) ∧
    c4Updated.face_image_url = none ∧
    c4Updated.blacklist_score = 60 ∧
    calculateBlacklistScore c4Updated.reason
      (decide (0 < c4Updated.id_document_urls.length)) (jsTruthy c4Updated.face_image_url) = 50 := by
  refine ⟨rfl, rfl, rfl, by decide⟩

/-- Company 1's single entry with last name "Wilson". -/
def c6Entry : BlacklistEntry :=
  { id := 1, user_id := 1, company_id := 1, first_name := "Ann".toList,
    last_name := "Wilson".toList, id_number := "7".toList, phone := none, email := none,
    face_image_url := none, id_document_urls := [], blacklist_score := 50,
    reason := "late".toList, status := .active, is_blacklisted := true,
    created_at := 0, updated_at := 0 }

/-- One user, one company, the single entry `c6Entry`. -/
def c6Store : Store :=
  { users := [⟨1, false⟩], companies := [⟨1, 1⟩], entries := [c6Entry], logs := [], nextId := 2 }

/-- A filter carrying only the given free-text search. -/
def searchFilter (search : List Char) : BlacklistFilter :=
  ⟨none, none, some search, none, none, none, none⟩

/-- C6 is false as stated: the entry's last name "Wilson" contains the search
string "wilson" case-insensitively, but the handler's `LIKE '%wilson%'`
condition is case-sensitive on this PostgreSQL schema, so the list result
is empty instead of returning the entry. -/
theorem c6_case_sensitivity_counterexample :
    c6Entry ∈ c6Store.entries ∧
    containsSub (lowerStr c6Entry.last_name) (lowerStr "wilson".toList) = true ∧
    getBlacklistEntries 1 (searchFilter "wilson".toList) ⟨1, 20⟩ c6Store = .ok ([], 0) := by
  refine ⟨by decide, by decide, rfl⟩

theorem entryMatches_searchFilter (companyId : Nat) (search : List Char) (e : BlacklistEntry) :
    entryMatches companyId (searchFilter search) e =
      (decide (e.company_id = companyId) && matchesSearch search e) := by
  simp [entryMatches, searchFilter]

/-- C6 amended: with only a free-text filter, the list operation selects
exactly the in-scope entries in which the search string occurs as a
case-SENSITIVE substring (SQL `LIKE`) of at least one of firstName,
lastName, idNumber, email or reason; an entry matching only with a
different letter case is not returned. -/
theorem c6_amended_search_case_sensitive (st : Store) (u cid : Nat) (search : List Char)
    (res : List BlacklistEntry × Nat)
    (hc : getUserCompanyId st u = .ok cid)
    (hres : getBlacklistEntries u (searchFilter search) ⟨1, st.entries.length⟩ st = .ok res) :
    (∀ x, x ∈ res.1 ↔ x ∈ st.entries ∧ x.company_id = cid ∧ matchesSearch search x = true) ∧
    res.2 = (st.entries.filter
      (fun e => decide (e.company_id = cid) && matchesSearch search e)).length := by
  simp only [getBlacklistEntries, hc, entryMatches_searchFilter] at hres
  obtain rfl := (Except.ok.injEq _ _).mp hres
  have hlen : (sortByCreatedDesc (st.entries.filter
      (fun e => decide (e.company_id = cid) && matchesSearch search e))).length ≤
        st.entries.length := by
    rw [length_sortByCreatedDesc]
    exact List.length_filter_le _ _
  constructor
  · intro x
    simp only [Nat.sub_self, Nat.zero_mul, List.drop_zero, List.take_of_length_le hlen,
      mem_sortByCreatedDesc, List.mem_filter, Bool.and_eq_true, decide_eq_true_eq]
  · rfl

/-- Concrete instance of the amended C6: searching "Wil" (matching case)
returns exactly the "Wilson" entry. -/
theorem c6_amended_search_witness :
    (∀ x, x ∈ ([c6Entry], 1).1 ↔
      x ∈ c6Store.entries ∧ x.company_id = 1 ∧ matchesSearch "Wil".toList x = true) ∧
    ([c6Entry], 1).2 = (c6Store.entries.filter
      (fun e => decide (e.company_id = 1) && matchesSearch "Wil".toList e)).length :=
  c6_amended_search_case_sensitive c6Store 1 1 "Wil".toList ([c6Entry], 1) rfl rfl

/-- C7: deleting an id for which the caller's company owns no entry —
whether the id does not exist at all or names another company's entry —
fails with the one indistinguishable `NotFoundOrDenied` error and returns
the store exactly as it was, so the out-of-scope entry survives with all
its fields intact. -/
theorem c7_delete_out_of_scope_denied (st : Store) (u cid entryId : Nat)
    (sinkOk : Bool) (now : Nat)
    (hc : getUserCompanyId st u = .ok cid)
    (hout : ∀ e ∈ st.entries, e.id = entryId → e.company_id ≠ cid) :
    deleteBlacklistEntry sinkOk u entryId now st = (.error .notFoundOrDenied, st) := by
  have hfind : st.entries.find?
      (fun x => decide (x.id = entryId) && decide (x.company_id = cid)) = none := by
    rw [List.find?_eq_none]
    intro x hx
    simp only [Bool.and_eq_true, decide_eq_true_eq, not_and]
    exact hout x hx
  simp [deleteBlacklistEntry, getBlacklistEntry, hc, hfind]

/-- An entry owned by company 2, targeted by a delete from company 1. -/
def c7Entry : BlacklistEntry :=
  { id := 4, user_id := 2, company_id := 2, first_name := "a".toList, last_name := "b".toList,
    id_number := "7".toList, phone := none, email := none, face_image_url := none,
    id_document_urls := [], blacklist_score := 50, reason := "r".toList, status := .active,
    is_blacklisted := true, created_at := 0, updated_at := 0 }

/-- Two companies; company 2 owns the only entry. -/
def c7Store : Store :=
  { users := [⟨1, false⟩, ⟨2, false⟩], companies := [⟨1, 1⟩, ⟨2, 2⟩],
    entries := [c7Entry], logs := [], nextId := 5 }

/-- Concrete instance of C7: user 1 deleting company 2's entry id 4. -/
theorem c7_delete_out_of_scope_denied_witness :
    deleteBlacklistEntry true 1 4 9 c7Store = (.error .notFoundOrDenied, c7Store) :=
  c7_delete_out_of_scope_denied c7Store 1 1 4 true 9 rfl (by decide)

/-- C8: updating an in-scope entry with an empty patch returns the stored
row with only `updated_at` replaced — every other field, the score
included, unchanged and not recomputed — and rewrites the table with just
that `updated_at` change. -/
theorem c8_empty_patch_frame (st : Store) (u cid entryId : Nat) (e : BlacklistEntry)
    (sinkOk : Bool) (now : Nat)
    (hc : getUserCompanyId st u = .ok cid)
    (hfind : st.entries.find?
      (fun x => decide (x.id = entryId) && decide (x.company_id = cid)) = some e) :
    (updateBlacklistEntry sinkOk u (emptyPatch entryId) now st).1 =
      .ok { e with updated_at := now } ∧
    (updateBlacklistEntry sinkOk u (emptyPatch entryId) now st).2.entries =
      st.entries.map (fun x => if decide (x.id = entryId) && decide (x.company_id = cid)
        then { x with updated_at := now } else x) := by
  constructor
  · simp [updateBlacklistEntry, getBlacklistEntry, hc, hfind, emptyPatch, applyOptNullable]
  · simp [updateBlacklistEntry, getBlacklistEntry, hc, hfind, emptyPatch, applyOptNullable,
      logActivity_entries]

/-- The single entry of the C8 store. -/
def c8Entry : BlacklistEntry :=
  { id := 3, user_id := 1, company_id := 1, first_name := "a".toList, last_name := "b".toList,
    id_number := "7".toList, phone := some "p".toList, email := none,
    face_image_url := some "f".toList, id_document_urls := ["d".toList],
    blacklist_score := 70, reason := "unpaid".toList, status := .pending,
    is_blacklisted := false, created_at := 2, updated_at := 2 }

/-- One user, one company, the single entry `c8Entry`. -/
def c8Store : Store :=
  { users := [⟨1, false⟩], companies := [⟨1, 1⟩], entries := [c8Entry], logs := [], nextId := 4 }

/-- Concrete instance of C8: the empty patch at `c8Entry`. -/
theorem c8_empty_patch_frame_witness :
    (updateBlacklistEntry true 1 (emptyPatch 3) 9 c8Store).1 =
      .ok { c8Entry with updated_at := 9 } ∧
    (updateBlacklistEntry true 1 (emptyPatch 3) 9 c8Store).2.entries =
      c8Store.entries.map (fun x => if decide (x.id = 3) && decide (x.company_id = 1)
        then { x with updated_at := 9 } else x) :=
  c8_empty_patch_frame c8Store 1 1 3 c8Entry true 9 rfl rfl

/-- C9: the behaviour of the activity-log sink never reaches the caller:
each mutating operation returns the same primary result and produces the
same entries table whether the activity insert succeeds or throws. -/
theorem c9_sink_failure_isolated (st : Store) (u : Nat) (inC : CreateBlacklistEntry)
    (inU : UpdateBlacklistEntry) (entryId : Nat) (b : Bool) (now : Nat) :
    (createBlacklistEntry true u inC now st).1 = (createBlacklistEntry false u inC now st).1 ∧
    (createBlacklistEntry true u inC now st).2.entries =
      (createBlacklistEntry false u inC now st).2.entries ∧
    (updateBlacklistEntry true u inU now st).1 = (updateBlacklistEntry false u inU now st).1 ∧
    (updateBlacklistEntry true u inU now st).2.entries =
      (updateBlacklistEntry false u inU now st).2.entries ∧
    (deleteBlacklistEntry true u entryId now st).1 =
      (deleteBlacklistEntry false u entryId now st).1 ∧
    (deleteBlacklistEntry true u entryId now st).2.entries =
      (deleteBlacklistEntry false u entryId now st).2.entries ∧
    (toggleBlacklistStatus true u entryId b now st).1 =
      (toggleBlacklistStatus false u entryId b now st).1 ∧
    (toggleBlacklistStatus true u entryId b now st).2.entries =
      (toggleBlacklistStatus false u entryId b now st).2.entries := by
  cases hg : getUserCompanyId st u with
  | error err =>
    simp [createBlacklistEntry, updateBlacklistEntry, deleteBlacklistEntry,
      toggleBlacklistStatus, hg]
  | ok cid =>
    refine ⟨?_, ?_, ?_, ?_, ?_, ?_, ?_, ?_⟩
    · simp [createBlacklistEntry, hg]
    · simp [createBlacklistEntry, hg, logActivity_entries]
    · cases hf : st.entries.find?
          (fun x => decide (x.id = inU.id) && decide (x.company_id = cid)) <;>
        simp [updateBlacklistEntry, getBlacklistEntry, hg, hf]
    · cases hf : st.entries.find?
          (fun x => decide (x.id = inU.id) && decide (x.company_id = cid)) <;>
        simp [updateBlacklistEntry, getBlacklistEntry, hg, hf, logActivity_entries]
    · cases hf : st.entries.find?
          (fun x => decide (x.id = entryId) && decide (x.company_id = cid)) <;>
        simp [deleteBlacklistEntry, getBlacklistEntry, hg, hf]
    · cases hf : st.entries.find?
          (fun x => decide (x.id = entryId) && decide (x.company_id = cid)) <;>
        simp [deleteBlacklistEntry, getBlacklistEntry, hg, hf, logActivity_entries]
    · cases hf : st.entries.find?
          (fun x => decide (x.id = entryId) && decide (x.company_id = cid)) <;>
        simp [toggleBlacklistStatus, getBlacklistEntry, hg, hf]
    · cases hf : st.entries.find?
          (fun x => decide (x.id = entryId) && decide (x.company_id = cid)) <;>
        simp [toggleBlacklistStatus, getBlacklistEntry, hg, hf, logActivity_entries]

/-- C10: create persists `status: 'active'` unconditionally while taking
`is_blacklisted` from the submission, so a submission with
`is_blacklisted = false` yields an active, non-blacklisted entry and the
toggle correspondence (true to active, false to inactive) does not hold at
creation. -/
theorem c10_create_status_active_unconditional (st : Store) (u now : Nat)
    (input : CreateBlacklistEntry) (sinkOk : Bool) (e : BlacklistEntry)
    (h : (createBlacklistEntry sinkOk u input now st).1 = .ok e) :
    e.status = .active ∧ e.is_blacklisted = input.is_blacklisted ∧
    (input.is_blacklisted = false → e.status ≠ toggledStatus e.is_blacklisted) := by
  cases hg : getUserCompanyId st u with
  | error err => simp [createBlacklistEntry, hg] at h
  | ok cid =>
    simp only [createBlacklistEntry, hg, Except.ok.injEq] at h
    subst h
    refine ⟨rfl, rfl, ?_⟩
    intro hf
    simp [toggledStatus, hf]

/-- A submission with `is_blacklisted = false`. -/
def c10Input : CreateBlacklistEntry :=
  { first_name := "a".toList, last_name := "b".toList, id_number := "7".toList,
    phone := none, email := none, face_image_url := none, id_document_urls := [],
    reason := "r".toList, is_blacklisted := false }

/-- One user owning one company and no entries yet. -/
def c10Store : Store :=
  { users := [⟨1, false⟩], companies := [⟨1, 1⟩], entries := [], logs := [], nextId := 1 }

/-- The row create persists for `c10Input`: active yet not blacklisted. -/
def c10Entry : BlacklistEntry :=
  { id := 1, user_id := 1, company_id := 1, first_name := "a".toList, last_name := "b".toList,
    id_number := "7".toList, phone := none, email := none, face_image_url := none,
    id_document_urls := [], blacklist_score := 50, reason := "r".toList, status := .active,
    is_blacklisted := false, created_at := 3, updated_at := 3 }

/-- Concrete instance of C10: creating with `is_blacklisted = false`. -/
theorem c10_create_status_active_witness :
    c10Entry.status = .active ∧ c10Entry.is_blacklisted = c10Input.is_blacklisted ∧
    (c10Input.is_blacklisted = false →
      c10Entry.status ≠ toggledStatus c10Entry.is_blacklisted) :=
  c10_create_status_active_unconditional c10Store 1 3 c10Input true c10Entry rfl

end RentalBlacklist
